import Mathlib

/-!
Verification of the granule transfer and artifact-assembly pipeline of
`hls_vi_historical/main.py`.

Strings are modelled as `List Char` (`Str`), so that every operation of the
source (startswith, split, replace, slicing) is an executable Lean function
and concrete inputs can be settled by `decide`.  The filesystem is modelled
as the list of existing paths.  The pluggable downloader is modelled either
as always succeeding and writing its destination path, or as a function
returning `Except` for the failure-propagation analysis.
-/

/-- Strings of the embedded program, modelled as lists of characters. -/
abbrev Str := List Char

/-- Python `s.split(sep)` for a single-character separator `sep`. -/
def splitSep (sep : Char) : Str → List Str
  | [] => [[]]
  | c :: cs =>
    if c = sep then [] :: splitSep sep cs
    else
      match splitSep sep cs with
      | [] => [[c]]
      | p :: ps => (c :: p) :: ps

/-- Python `s.split(".")`, used by the granule-identifier parse. -/
def splitDot : Str → List Str := splitSep '.'

/-- Joining with a single-character separator, inverse of `splitSep`. -/
def joinSep (sep : Char) : List Str → Str
  | [] => []
  | [x] => x
  | x :: y :: ys => x ++ sep :: joinSep sep (y :: ys)

/-- The instruments recognised by the pipeline. -/
inductive Instrument where
  | L30
  | S30
deriving DecidableEq

/-- The instrument token as it appears in identifiers and output keys. -/
def Instrument.name : Instrument → Str
  | .L30 => "L30".data
  | .S30 => "S30".data

/-- Modelled from the spec: the `GranuleId` value of section 3, parsed from
`HLS.<INSTR>.<TILE>.<ACQ_TS>.v<VER>`.  The parsing code (`GranuleId.from_string`
of the `hls_vi` package) is not under `src/`; only its callers are.  The spec
section 4.1 states the contract: split on `.`, require at least 5 fields in
positions (literal `HLS`, instrument, tile, acquisition timestamp, version),
and fail with `MalformedGranuleId` when the literal first field or the
instrument token does not match expectations. -/
structure GranuleId where
  instrument : Instrument
  tile_id : Str
  acquisition_date : Str
  version : Str
deriving DecidableEq

/-- Modelled from the spec: `GranuleId` parsing (spec section 4.1).  `none`
models raising `MalformedGranuleId`.  The version is the re-joined remainder
after the first four fields (so `HLS.L30.T.20251T1.v2.0` has version `v2.0`). -/
def granuleIdFromString (s : Str) : Option GranuleId :=
  match splitDot s with
  | hls :: instr :: tile :: acq :: v :: rest =>
    if hls = "HLS".data then
      if instr = "L30".data then
        some ⟨.L30, tile, acq, joinSep '.' (v :: rest)⟩
      else if instr = "S30".data then
        some ⟨.S30, tile, acq, joinSep '.' (v :: rest)⟩
      else none
    else none
  | _ => none

/-- The L30 band set, in declaration order.  The band enumerations live in the
external `hls_vi` package; their members and order are pinned by the doctest
of `granule_sources` in `src/hls_vi_historical/main.py` (lines 51-60). -/
def L30Band : List Str := ["B02", "B03", "B04", "B05", "B06", "B07"].map String.data

/-- The S30 band set, in declaration order, pinned by the doctest of
`granule_sources` (lines 64-73). -/
def S30Band : List Str := ["B02", "B03", "B04", "B8A", "B11", "B12"].map String.data

/-- Embeds `granule_sources` (main.py lines 26-88): the LPDAAC (bucket, key)
pairs of the HLS files needed to build the VI granule.  The instrument test is
`granule_id.startswith("HLS.L30")`; the collection is
`f"HLS{'L' if is_l30 else 'S'}30.020"`; the thumbnail jpg goes to the public
bucket and every other file to the protected bucket. -/
def granule_sources (granule_id : Str) : List (Str × Str) :=
  let is_l30 := "HLS.L30".data.isPrefixOf granule_id
  let collection : Str :=
    "HLS".data ++ (if is_l30 then "L".data else "S".data) ++ "30.020".data
  let bands := if is_l30 then L30Band else S30Band
  let suffixes :=
    bands.map (fun band => '.' :: band ++ ".tif".data) ++
      [".Fmask.tif".data, ".cmr.xml".data]
  ("lp-prod-public".data, collection ++ '/' :: granule_id ++ '/' :: granule_id ++ ".jpg".data)
    :: suffixes.map (fun suffix =>
        ("lp-prod-protected".data, collection ++ '/' :: granule_id ++ '/' :: granule_id ++ suffix))

/-- Python first-occurrence replacement, as in
`granule_id.replace("HLS", "HLS-VI", 1)`: replace the leftmost occurrence of
`old` by `new`, leaving the string unchanged when `old` does not occur. -/
def replaceFirst (old new : Str) : Str → Str
  | [] => if old.isPrefixOf [] then new else []
  | c :: cs =>
    if old.isPrefixOf (c :: cs) then new ++ (c :: cs).drop old.length
    else c :: replaceFirst old new cs

/-- Embeds `output_key_prefix` (main.py lines 234-258): the S3 key prefix for
the VI outputs of an HLS granule.  The name is shortened from the source's
`output_key_` + `prefix`.  The parse of the granule id is the spec-modelled
`granuleIdFromString`; `none` models the `MalformedGranuleId` the Python
function lets escape. -/
def output_key_pfx (granule_id : Str) : Option Str :=
  (granuleIdFromString granule_id).map fun id_ =>
    let vi_granule_id := replaceFirst "HLS".data "HLS-VI".data granule_id
    let yyyyddd := id_.acquisition_date.take 7
    id_.instrument.name ++ "_VI/data/".data ++ yyyyddd ++ '/' :: vi_granule_id

/-- The collection short-name per instrument, as the claim states it. -/
def collectionOf : Instrument → Str
  | .L30 => "HLSL30.020".data
  | .S30 => "HLSS30.020".data

/-- The band set per instrument, as the claim states it. -/
def bandsOf : Instrument → List Str
  | .L30 => L30Band
  | .S30 => S30Band

/-- Python `key[key.rfind("/") + 1:]` (main.py line 126): the substring after
the final `/`, or the whole key when there is no `/`. -/
def basename (key : Str) : Str :=
  (key.reverse.takeWhile (fun c => c != '/')).reverse

/-- Embeds `download_files` (main.py lines 102-137) with the downloader of
claim C2: one that writes each fetched object to its destination path.  The
filesystem is the list `fs` of existing paths and `dst.exists()` is list
membership; paths are treated as already absolute.  The value is the pair
`(missing_srcs, missing_dsts)` returned by the Python function, together with
the filesystem after all fetches have completed. -/
def download_files (srcs : List (Str × Str)) (dst_dir : Str) (fs : List Str) :
    (List (Str × Str) × List Str) × List Str :=
  let src_names := srcs.map (fun src => basename src.2)
  let dsts := src_names.map (fun src_name => dst_dir ++ '/' :: src_name)
  let missing := (srcs.zip dsts).filter (fun sd => !decide (sd.2 ∈ fs))
  let missing_srcs := missing.map (fun sd => sd.1)
  let missing_dsts := missing.map (fun sd => sd.2)
  ((missing_srcs, missing_dsts), fs ++ missing_dsts)

/-- The missing partition computed by `download_files`: the (source,
destination) pairs whose destination path does not yet exist. -/
def missingOf (srcs : List (Str × Str)) (dst_dir : Str) (fs : List Str) :
    List ((Str × Str) × Str) :=
  (srcs.zip ((srcs.map (fun src => basename src.2)).map
      (fun src_name => dst_dir ++ '/' :: src_name))).filter
    (fun sd => !decide (sd.2 ∈ fs))

/-- Embeds `prepare_inputs` (main.py lines 178-197): resolve the granule's
sources, download the missing ones, then sanitize the CMR XML at
`dst_dir / f"{granule_id}.cmr.xml"`.  The value is the `download_files`
result together with the path handed to `strip_metadata_urls`. -/
def prepare_inputs (granule_id : Str) (dst_dir : Str) (fs : List Str) :
    ((List (Str × Str) × List Str) × List Str) × Str :=
  (download_files (granule_sources granule_id) dst_dir fs,
    dst_dir ++ '/' :: granule_id ++ ".cmr.xml".data)

/-- Success test for one downloader outcome in the fallible transfer model. -/
def fetchOk {E : Type} : Except E Unit → Bool
  | .ok _ => true
  | .error _ => false

/-- The error of one downloader outcome, when it failed. -/
def fetchErr {E : Type} : Except E Unit → Option E
  | .ok _ => none
  | .error e => some e

/-- Embeds `download_files` (main.py lines 102-137) with a fallible
downloader `dl`: each missing source's fetch either writes its destination
path (`Except.ok`) or fails (`Except.error`).  All dispatched tasks run to
completion (the executor joins before the `with` block exits), then iterating
the results raises the first error in input order; successful writes stay on
disk.  The value is the raised error or the Python return value, together
with the filesystem after the join. -/
def download_files_exc {E : Type} (dl : (Str × Str) → Str → Except E Unit)
    (srcs : List (Str × Str)) (dst_dir : Str) (fs : List Str) :
    Except E (List (Str × Str) × List Str) × List Str :=
  let missing := missingOf srcs dst_dir fs
  let fs' := fs ++ (missing.filter (fun sd => fetchOk (dl sd.1 sd.2))).map (fun sd => sd.2)
  match missing.findSome? (fun sd => fetchErr (dl sd.1 sd.2)) with
  | some e => (.error e, fs')
  | none => (.ok (missing.map (fun sd => sd.1), missing.map (fun sd => sd.2)), fs')

/-- A downloader for the C7 witness: fetching key `a/k2` fails with error 7,
every other fetch succeeds. -/
def dlC7 : (Str × Str) → Str → Except Nat Unit :=
  fun src _dst => if src.2 = "a/k2".data then .error 7 else .ok ()

/-- Sources for the C7 witness. -/
def srcsC7 : List (Str × Str) := [("b".data, "a/k1".data), ("b".data, "a/k2".data)]

/-- One S3 `put_object` call issued by the publish stage. -/
structure UploadCall where
  bucket : Str
  key : Str
  acl : Str
deriving DecidableEq

/-- Embeds `create_manifest` (main.py lines 261-290) as the name of the
manifest file it writes: `{vi_granule_id}.json`, where `vi_granule_id` is the
last `/`-separated component of the output key.  The manifest generator CLI
is an external collaborator; only the produced filename matters for the
upload trace. -/
def create_manifest_filename (granule_id : Str) : Option Str :=
  (output_key_pfx granule_id).map fun kp =>
    ((splitSep '/' kp).getLastD []) ++ ".json".data

/-- Embeds `upload_outputs` (main.py lines 293-318) as the ordered trace of
`put_object` calls it issues: one call per file in the output directory with
key `{kp}/{name}` and ACL `public-read` in debug mode else `private`, then
the manifest upload under the same key and the same ACL, strictly last.
`none` models the `MalformedGranuleId` escaping from the key derivation. -/
def upload_outputs (granule_id : Str) (output_files : List Str)
    (bucket : Str) (debug : Bool) : Option (List UploadCall) :=
  (output_key_pfx granule_id).bind fun kp =>
    (create_manifest_filename granule_id).map fun mname =>
      let acl := if debug then "public-read".data else "private".data
      output_files.map (fun name => ⟨bucket, kp ++ '/' :: name, acl⟩)
        ++ [⟨bucket, kp ++ '/' :: mname, acl⟩]

/-- Modelled from the spec: XML documents handled by the metadata sanitizer
(spec section 4.4).  The XSLT `resources/strip-urls.xslt` applied by
`strip_metadata_urls` (main.py lines 140-175) is not under `src/`; the spec
describes its effect.  Attributes and character data suffice to express the
claimed properties. -/
inductive Xml where
  | text (s : Str) : Xml
  | elem (tag : Str) (attrs : List (Str × Str)) (children : List Xml) : Xml

/-- Whether a node list carries the character data `SHA512` directly. -/
def hasSHA512Text : List Xml → Bool
  | [] => false
  | .text v :: cs => (v = "SHA512".data) || hasSHA512Text cs
  | .elem _ _ _ :: cs => hasSHA512Text cs

/-- A checksum entry spelled in the non-canonical form: an `Algorithm`
element whose value is the character data `SHA512` (the granule schema only
permits `SHA-512`). -/
def isNonCanonicalAlg : Xml → Bool
  | .elem t _ cs => (t = "Algorithm".data) && hasSHA512Text cs
  | .text _ => false

/-- Whether the sanitizer removes this node: a URL-bearing element (tag in
`urlTags`, the fixed tag set matched by the XSLT) or a non-canonically
spelled checksum algorithm entry. -/
def removable (urlTags : List Str) : Xml → Bool
  | .text _ => false
  | .elem t a cs => urlTags.contains t || isNonCanonicalAlg (.elem t a cs)

mutual

/-- Modelled from the spec: the structural transform of section 4.4 — below
the (preserved) current node, drop every URL node and every non-canonical
checksum algorithm entry, recursively. -/
def sanitize (urlTags : List Str) : Xml → Xml
  | .text s => .text s
  | .elem t a cs => .elem t a (sanitizeChildren urlTags cs)

/-- Child-list part of `sanitize`: removable children are dropped, the rest
are sanitized recursively. -/
def sanitizeChildren (urlTags : List Str) : List Xml → List Xml
  | [] => []
  | c :: cs =>
    (if removable urlTags c then [] else [sanitize urlTags c])
      ++ sanitizeChildren urlTags cs

end

mutual

/-- Number of URL-bearing elements in a document. -/
def countUrl (urlTags : List Str) : Xml → Nat
  | .text _ => 0
  | .elem t _ cs => (if urlTags.contains t then 1 else 0) + countUrlList urlTags cs

/-- Number of URL-bearing elements under a list of nodes. -/
def countUrlList (urlTags : List Str) : List Xml → Nat
  | [] => 0
  | c :: cs => countUrl urlTags c + countUrlList urlTags cs

end

mutual

/-- Number of non-canonically spelled checksum algorithm entries. -/
def countAlg : Xml → Nat
  | .text _ => 0
  | .elem t a cs => (if isNonCanonicalAlg (.elem t a cs) then 1 else 0) + countAlgList cs

/-- Number of non-canonical checksum entries under a list of nodes. -/
def countAlgList : List Xml → Nat
  | [] => 0
  | c :: cs => countAlg c + countAlgList cs

end

/-- Character-data escaping of the canonical serialization (write_c14n). -/
def escapeText : Str → Str
  | [] => []
  | c :: cs =>
    (if c = '&' then "&amp;".data
     else if c = '<' then "&lt;".data
     else if c = '>' then "&gt;".data
     else [c]) ++ escapeText cs

/-- Attribute-value escaping of the canonical serialization. -/
def escapeAttr : Str → Str
  | [] => []
  | c :: cs =>
    (if c = '&' then "&amp;".data
     else if c = '<' then "&lt;".data
     else if c = '"' then "&quot;".data
     else [c]) ++ escapeAttr cs

/-- Serialized attribute list. -/
def serializeAttrs : List (Str × Str) → Str
  | [] => []
  | (n, v) :: rest =>
    ' ' :: n ++ '=' :: '"' :: escapeAttr v ++ '"' :: serializeAttrs rest

mutual

/-- Modelled from the spec: canonical serialization as used by write_c14n —
an element is always rendered as an explicit open tag and close tag, never in
self-closing form, also when it has no children (the downstream SAX parser
rejects collapsed empty elements). -/
def serialize : Xml → Str
  | .text s => escapeText s
  | .elem t a cs =>
    '<' :: (t ++ serializeAttrs a) ++ '>'
      :: (serializeList cs ++ '<' :: '/' :: t ++ ['>'])

/-- Serialization of a node list, in order. -/
def serializeList : List Xml → Str
  | [] => []
  | c :: cs => serialize c ++ serializeList cs

end

/-- The function `splitSep` never returns the empty list of fields. -/
theorem splitSep_ne_nil (sep : Char) (s : Str) : splitSep sep s ≠ [] := by
  cases s with
  | nil => simp [splitSep]
  | cons c cs =>
    simp only [splitSep]
    split
    · simp
    · split <;> simp

/-- Re-joining the fields of `splitSep` gives back the original string. -/
theorem joinSep_splitSep (sep : Char) (s : Str) :
    joinSep sep (splitSep sep s) = s := by
  induction s with
  | nil => simp [splitSep, joinSep]
  | cons c cs ih =>
    simp only [splitSep]
    split
    next hc =>
      rcases h : splitSep sep cs with _ | ⟨p, ps⟩
      · exact absurd h (splitSep_ne_nil sep cs)
      · rw [h] at ih
        simp [joinSep, ih, hc]
    next hc =>
      rcases h : splitSep sep cs with _ | ⟨p, ps⟩
      · exact absurd h (splitSep_ne_nil sep cs)
      · rw [h] at ih
        cases ps with
        | nil => simp_all [joinSep]
        | cons q qs => simp_all [joinSep]

/-- A successful parse exposes the split structure of the identifier: the
first field is the literal `HLS` and the second is the instrument token. -/
theorem parse_splitDot (s : Str) (g : GranuleId)
    (h : granuleIdFromString s = some g) :
    ∃ tile acq v rest,
      splitDot s = "HLS".data :: g.instrument.name :: tile :: acq :: v :: rest := by
  unfold granuleIdFromString at h
  rcases hsp : splitDot s with _ | ⟨a, _ | ⟨b, _ | ⟨c, _ | ⟨d, _ | ⟨e, rest⟩⟩⟩⟩⟩ <;>
      rw [hsp] at h
  · exact absurd h (by simp)
  · exact absurd h (by simp)
  · exact absurd h (by simp)
  · exact absurd h (by simp)
  · exact absurd h (by simp)
  · dsimp only at h
    split_ifs at h with h1 h2 h3
    · rw [Option.some.injEq] at h
      subst h
      exact ⟨c, d, e, rest, by rw [h1, h2]; rfl⟩
    · rw [Option.some.injEq] at h
      subst h
      exact ⟨c, d, e, rest, by rw [h1, h3]; rfl⟩

/-- A successful parse decomposes the identifier as
`HLS.<instrument token>.<remainder>`. -/
theorem parse_decomp (s : Str) (g : GranuleId)
    (h : granuleIdFromString s = some g) :
    ∃ t : Str, s = "HLS".data ++ '.' :: (g.instrument.name ++ '.' :: t) := by
  obtain ⟨tile, acq, v, rest, hsp⟩ := parse_splitDot s g h
  refine ⟨joinSep '.' (tile :: acq :: v :: rest), ?_⟩
  conv_lhs => rw [← joinSep_splitSep '.' s]
  rw [show splitDot s = splitSep '.' s from rfl] at hsp
  rw [hsp]
  rfl

/-- A valid L30 identifier starts with the literal `HLS.L30`. -/
theorem parse_L30_starts (s : Str) (g : GranuleId)
    (h : granuleIdFromString s = some g) (hi : g.instrument = .L30) :
    "HLS.L30".data.isPrefixOf s = true := by
  obtain ⟨t, hdec⟩ := parse_decomp s g h
  rw [hi] at hdec
  rw [ List.isPrefixOf_iff_prefix, hdec]
  exact ⟨'.' :: t, by rfl⟩

/-- A valid S30 identifier does not start with the literal `HLS.L30`. -/
theorem parse_S30_not_starts (s : Str) (g : GranuleId)
    (h : granuleIdFromString s = some g) (hi : g.instrument = .S30) :
    "HLS.L30".data.isPrefixOf s = false := by
  obtain ⟨t, hdec⟩ := parse_decomp s g h
  rw [hi] at hdec
  have hdec' : s = "HLS.S30".data ++ '.' :: t := by rw [hdec]; rfl
  rw [Bool.eq_false_iff]
  intro hpre
  rw [ List.isPrefixOf_iff_prefix, List.prefix_iff_eq_take] at hpre
  rw [hdec'] at hpre
  rw [show ("HLS.L30".data).length = ("HLS.S30".data).length from rfl,
    List.take_left] at hpre
  exact absurd hpre (by decide)

/-- C1: for every valid granule identifier, `granule_sources` returns exactly
9 (bucket, key) locators in a fixed order: first the browse jpg with key
`{collection}/{granule_id}/{granule_id}.jpg` in the public bucket
`lp-prod-public`, then, in the protected bucket `lp-prod-protected`, one
locator per band of the instrument's band set in declaration order, then
`{granule_id}.Fmask.tif`, then `{granule_id}.cmr.xml`; L30 uses the L30 band
set and S30 the S30 band set. -/
theorem C1_granule_sources_shape (s : Str) (g : GranuleId)
    (h : granuleIdFromString s = some g) :
    granule_sources s =
      ("lp-prod-public".data,
          collectionOf g.instrument ++ '/' :: s ++ '/' :: s ++ ".jpg".data)
        :: ((bandsOf g.instrument).map (fun band =>
              ("lp-prod-protected".data,
                collectionOf g.instrument ++ '/' :: s ++ '/' :: s ++ '.' :: band ++ ".tif".data))
            ++ [("lp-prod-protected".data,
                  collectionOf g.instrument ++ '/' :: s ++ '/' :: s ++ ".Fmask.tif".data),
                ("lp-prod-protected".data,
                  collectionOf g.instrument ++ '/' :: s ++ '/' :: s ++ ".cmr.xml".data)])
      ∧ (granule_sources s).length = 9 := by
  cases hi : g.instrument
  case L30 =>
    have hp := parse_L30_starts s g h hi
    refine ⟨?_, ?_⟩ <;>
      simp [granule_sources, hp, collectionOf, bandsOf, L30Band]
  case S30 =>
    have hp := parse_S30_not_starts s g h hi
    refine ⟨?_, ?_⟩ <;>
      simp [granule_sources, hp, collectionOf, bandsOf, S30Band]

/-- C1 witness at a concrete valid L30 identifier. -/
theorem C1_granule_sources_shape_witness :
    granuleIdFromString "HLS.L30.T58UFF.2025105T234951.v2.0".data
        = some ⟨.L30, "T58UFF".data, "2025105T234951".data, "v2.0".data⟩
      ∧ (granule_sources "HLS.L30.T58UFF.2025105T234951.v2.0".data =
          ("lp-prod-public".data,
              collectionOf Instrument.L30 ++ '/' :: "HLS.L30.T58UFF.2025105T234951.v2.0".data
                ++ '/' :: "HLS.L30.T58UFF.2025105T234951.v2.0".data ++ ".jpg".data)
            :: ((bandsOf Instrument.L30).map (fun band =>
                  ("lp-prod-protected".data,
                    collectionOf Instrument.L30 ++ '/' :: "HLS.L30.T58UFF.2025105T234951.v2.0".data
                      ++ '/' :: "HLS.L30.T58UFF.2025105T234951.v2.0".data ++ '.' :: band ++ ".tif".data))
                ++ [("lp-prod-protected".data,
                      collectionOf Instrument.L30 ++ '/' :: "HLS.L30.T58UFF.2025105T234951.v2.0".data
                        ++ '/' :: "HLS.L30.T58UFF.2025105T234951.v2.0".data ++ ".Fmask.tif".data),
                    ("lp-prod-protected".data,
                      collectionOf Instrument.L30 ++ '/' :: "HLS.L30.T58UFF.2025105T234951.v2.0".data
                        ++ '/' :: "HLS.L30.T58UFF.2025105T234951.v2.0".data ++ ".cmr.xml".data)])
          ∧ (granule_sources "HLS.L30.T58UFF.2025105T234951.v2.0".data).length = 9) :=
  ⟨by decide,
   C1_granule_sources_shape "HLS.L30.T58UFF.2025105T234951.v2.0".data
     ⟨.L30, "T58UFF".data, "2025105T234951".data, "v2.0".data⟩ (by decide)⟩

/-- C10: for every input string that does not start with the literal
`HLS.L30` — valid granule identifier or not — `granule_sources` raises no
error and returns the S30-shaped result: collection `HLSS30.020` and the S30
band set.  The instrument decision is a prefix test with S30 as the default
branch. -/
theorem C10_default_branch_S30 (s : Str)
    (h : "HLS.L30".data.isPrefixOf s = false) :
    granule_sources s =
      ("lp-prod-public".data,
          "HLSS30.020".data ++ '/' :: s ++ '/' :: s ++ ".jpg".data)
        :: (S30Band.map (fun band =>
              ("lp-prod-protected".data,
                "HLSS30.020".data ++ '/' :: s ++ '/' :: s ++ '.' :: band ++ ".tif".data))
            ++ [("lp-prod-protected".data,
                  "HLSS30.020".data ++ '/' :: s ++ '/' :: s ++ ".Fmask.tif".data),
                ("lp-prod-protected".data,
                  "HLSS30.020".data ++ '/' :: s ++ '/' :: s ++ ".cmr.xml".data)]) := by
  simp [granule_sources, h, S30Band]

/-- C10 witness at a string that is not a granule identifier at all. -/
theorem C10_default_branch_S30_witness :
    "HLS.L30".data.isPrefixOf "not-a-granule".data = false ∧
    granule_sources "not-a-granule".data =
      ("lp-prod-public".data,
          "HLSS30.020".data ++ '/' :: "not-a-granule".data
            ++ '/' :: "not-a-granule".data ++ ".jpg".data)
        :: (S30Band.map (fun band =>
              ("lp-prod-protected".data,
                "HLSS30.020".data ++ '/' :: "not-a-granule".data
                  ++ '/' :: "not-a-granule".data ++ '.' :: band ++ ".tif".data))
            ++ [("lp-prod-protected".data,
                  "HLSS30.020".data ++ '/' :: "not-a-granule".data
                    ++ '/' :: "not-a-granule".data ++ ".Fmask.tif".data),
                ("lp-prod-protected".data,
                  "HLSS30.020".data ++ '/' :: "not-a-granule".data
                    ++ '/' :: "not-a-granule".data ++ ".cmr.xml".data)]) :=
  ⟨by decide, C10_default_branch_S30 "not-a-granule".data (by decide)⟩

/-- C3: the output key derivation yields
`L30_VI/data/2025105/HLS-VI.L30.T58UFF.2025105T234951.v2.0` for the L30
example identifier and `S30_VI/data/2025105/HLS-VI.S30.T59VNH.2025105T234641.v2.0`
for the S30 example identifier; in general the result is
`{instrument}_VI/data/{yyyyddd}/{vi_granule_id}` where `yyyyddd` is the first
7 characters of the acquisition timestamp and `vi_granule_id` replaces the
first occurrence of `HLS` in the granule id with `HLS-VI`. -/
theorem C3_output_key_derivation :
    output_key_pfx "HLS.L30.T58UFF.2025105T234951.v2.0".data
        = some "L30_VI/data/2025105/HLS-VI.L30.T58UFF.2025105T234951.v2.0".data
    ∧ output_key_pfx "HLS.S30.T59VNH.2025105T234641.v2.0".data
        = some "S30_VI/data/2025105/HLS-VI.S30.T59VNH.2025105T234641.v2.0".data
    ∧ ∀ (s : Str) (g : GranuleId), granuleIdFromString s = some g →
        output_key_pfx s =
          some (g.instrument.name ++ "_VI/data/".data ++ g.acquisition_date.take 7
            ++ '/' :: replaceFirst "HLS".data "HLS-VI".data s) := by
  refine ⟨by decide, by decide, fun s g h => ?_⟩
  simp [output_key_pfx, h]

/-- C4 counterexample: the claim says every string that does not match the
dotted format `HLS.<INSTR>.<TILE>.<TS>.v<VER>` fails to parse, but a version
field that does not start with `v` is accepted: the parse of
`HLS.L30.T58UFF.2025105T234951.20` succeeds. -/
theorem C4_counterexample :
    granuleIdFromString "HLS.L30.T58UFF.2025105T234951.20".data
      = some ⟨.L30, "T58UFF".data, "2025105T234951".data, "20".data⟩ := by
  decide

/-- C4 amended: parsing a granule identifier fails (raises
`MalformedGranuleId`) exactly when the string does not split on `.` into at
least 5 fields whose first field is the literal `HLS` and whose second field
is `L30` or `S30`; the shapes of the tile, timestamp and version fields are
not validated. -/
theorem C4_malformed_iff (s : Str) :
    granuleIdFromString s = none ↔
      (splitDot s).length < 5 ∨
        ((splitDot s).take 2 ≠ ["HLS".data, "L30".data] ∧
         (splitDot s).take 2 ≠ ["HLS".data, "S30".data]) := by
  unfold granuleIdFromString
  rcases hsp : splitDot s with _ | ⟨a, _ | ⟨b, _ | ⟨c, _ | ⟨d, _ | ⟨e, rest⟩⟩⟩⟩⟩ <;> simp
  dsimp only
  split_ifs with h1 h2 <;> simp_all

/-- Unfolding of `download_files` through `missingOf`. -/
theorem download_files_eq (srcs : List (Str × Str)) (dst_dir : Str) (fs : List Str) :
    download_files srcs dst_dir fs =
      (((missingOf srcs dst_dir fs).map (fun sd => sd.1),
        (missingOf srcs dst_dir fs).map (fun sd => sd.2)),
       fs ++ (missingOf srcs dst_dir fs).map (fun sd => sd.2)) := rfl

/-- Zipping a list with its own image under a map pairs each element with its
image. -/
theorem zip_map_self {α β : Type} (f : α → β) :
    ∀ l : List α, l.zip (l.map f) = l.map (fun a => (a, f a))
  | [] => rfl
  | a :: l => by simp [zip_map_self f l]

/-- C2: idempotence of the transfer engine.  After one call of
`download_files` (whose downloader wrote every fetched object to its
destination path), a second call with the same sources and destination
directory fetches nothing: it returns the empty fetched set and leaves the
filesystem unchanged, so the downloader is invoked zero times. -/
theorem C2_transfer_idempotent (srcs : List (Str × Str)) (dst_dir : Str) (fs : List Str) :
    (download_files srcs dst_dir ((download_files srcs dst_dir fs).2)).1 = ([], [])
    ∧ (download_files srcs dst_dir ((download_files srcs dst_dir fs).2)).2
        = (download_files srcs dst_dir fs).2 := by
  have hnil : missingOf srcs dst_dir ((download_files srcs dst_dir fs).2) = [] := by
    rw [missingOf, List.filter_eq_nil_iff]
    intro sd hmem
    simp only [Bool.not_eq_true', decide_eq_false_iff_not, not_not]
    by_cases hin : sd.2 ∈ fs
    · rw [download_files_eq]
      exact List.mem_append.mpr (Or.inl hin)
    · have hsd : sd ∈ missingOf srcs dst_dir fs := by
        rw [missingOf, List.mem_filter]
        exact ⟨hmem, by simp [hin]⟩
      rw [download_files_eq]
      exact List.mem_append.mpr (Or.inr (List.mem_map.mpr ⟨sd, hsd, rfl⟩))
  rw [download_files_eq srcs dst_dir ((download_files srcs dst_dir fs).2), hnil]
  simp

/-- C5: `download_files` returns exactly the missing subset of the sources —
those whose local path `dst_dir/basename(key)` does not already exist — in
the order of the input sequence, paired componentwise with those local
paths; sources already present are not returned. -/
theorem C5_fetched_are_missing (srcs : List (Str × Str)) (dst_dir : Str) (fs : List Str) :
    (download_files srcs dst_dir fs).1.1
        = srcs.filter (fun src => !decide (dst_dir ++ '/' :: basename src.2 ∈ fs))
    ∧ (download_files srcs dst_dir fs).1.2
        = ((srcs.filter (fun src => !decide (dst_dir ++ '/' :: basename src.2 ∈ fs))).map
            (fun src => dst_dir ++ '/' :: basename src.2)) := by
  have hm : missingOf srcs dst_dir fs
      = (srcs.filter (fun src => !decide (dst_dir ++ '/' :: basename src.2 ∈ fs))).map
          (fun src => (src, dst_dir ++ '/' :: basename src.2)) := by
    rw [missingOf, List.map_map, zip_map_self, List.filter_map]
    rfl
  rw [download_files_eq, hm]
  refine ⟨?_, ?_⟩ <;> simp [Function.comp_def]

/-- C8 counterexample: for granule `HLS.L30.T58UFF.2025105T234951.v2.0` with
an empty destination directory the prepare stage performs 9 fetches, not the
8 the claim states: all 9 resolved sources are missing. -/
theorem C8_counterexample :
    ¬ ((prepare_inputs "HLS.L30.T58UFF.2025105T234951.v2.0".data
          "work".data []).1.1.1).length = 8 := by
  decide

/-- C8 amended: for granule `HLS.L30.T58UFF.2025105T234951.v2.0` with an
empty local destination directory, the prepare stage fetches exactly the 9
resolved sources (none pre-existing), then sanitizes the single cmr.xml file
at `dst_dir/HLS.L30.T58UFF.2025105T234951.v2.0.cmr.xml`. -/
theorem C8_prepare_scenario (dst_dir : Str) :
    (prepare_inputs "HLS.L30.T58UFF.2025105T234951.v2.0".data dst_dir []).1.1.1
        = granule_sources "HLS.L30.T58UFF.2025105T234951.v2.0".data
    ∧ ((prepare_inputs "HLS.L30.T58UFF.2025105T234951.v2.0".data dst_dir []).1.1.1).length = 9
    ∧ (prepare_inputs "HLS.L30.T58UFF.2025105T234951.v2.0".data dst_dir []).2
        = dst_dir ++ '/' :: "HLS.L30.T58UFF.2025105T234951.v2.0.cmr.xml".data := by
  have hfetch :
      (prepare_inputs "HLS.L30.T58UFF.2025105T234951.v2.0".data dst_dir []).1.1.1
        = granule_sources "HLS.L30.T58UFF.2025105T234951.v2.0".data := by
    show (download_files _ dst_dir []).1.1 = _
    rw [download_files_eq, missingOf]
    simp [zip_map_self, Function.comp_def]
  refine ⟨hfetch, ?_, ?_⟩
  · rw [hfetch]
    decide
  · show dst_dir ++ '/' :: "HLS.L30.T58UFF.2025105T234951.v2.0".data ++ ".cmr.xml".data = _
    simp

/-- C7: if any fetch dispatched by `download_files` fails, the transfer
aborts with the error of the first failing fetch, surfaced unmodified (it is
the very error value the downloader produced; every fetch before it in input
order succeeded), after all dispatched tasks completed; and no file already
on disk is removed: every pre-existing path and every successfully fetched
destination is in the final filesystem. -/
theorem C7_first_error_surfaced {E : Type}
    (dl : (Str × Str) → Str → Except E Unit)
    (srcs : List (Str × Str)) (dst_dir : Str) (fs : List Str)
    (sd : (Str × Str) × Str) (hmem : sd ∈ missingOf srcs dst_dir fs)
    (e : E) (hfail : dl sd.1 sd.2 = .error e) :
    (∃ e' pre x post,
        (download_files_exc dl srcs dst_dir fs).1 = .error e'
        ∧ missingOf srcs dst_dir fs = pre ++ x :: post
        ∧ dl x.1 x.2 = .error e'
        ∧ ∀ y ∈ pre, dl y.1 y.2 = .ok ())
    ∧ (∀ p ∈ fs, p ∈ (download_files_exc dl srcs dst_dir fs).2)
    ∧ (∀ y ∈ missingOf srcs dst_dir fs, dl y.1 y.2 = .ok () →
          y.2 ∈ (download_files_exc dl srcs dst_dir fs).2) := by
  have hsome : ((missingOf srcs dst_dir fs).findSome?
      (fun sd => fetchErr (dl sd.1 sd.2))).isSome := by
    rw [List.findSome?_isSome_iff]
    exact ⟨sd, hmem, by rw [hfail]; rfl⟩
  obtain ⟨e', he'⟩ := Option.isSome_iff_exists.mp hsome
  obtain ⟨pre, x, post, hdec, hx, hpre⟩ := List.findSome?_eq_some_iff.mp he'
  refine ⟨⟨e', pre, x, post, ?_, hdec, ?_, ?_⟩, ?_, ?_⟩
  · rw [download_files_exc, he']
  · revert hx
    cases hdl : dl x.1 x.2
    · simp [fetchErr]
    · simp [fetchErr]
  · intro y hy
    have := hpre y hy
    revert this
    cases hdl : dl y.1 y.2
    · simp [fetchErr]
    · simp [fetchErr]
  · intro p hp
    rw [download_files_exc]
    cases ((missingOf srcs dst_dir fs).findSome? (fun sd => fetchErr (dl sd.1 sd.2))) <;>
      exact List.mem_append.mpr (Or.inl hp)
  · intro y hy hok
    rw [download_files_exc]
    have hmemf : y ∈ (missingOf srcs dst_dir fs).filter
        (fun sd => fetchOk (dl sd.1 sd.2)) :=
      List.mem_filter.mpr ⟨hy, by rw [hok]; rfl⟩
    cases ((missingOf srcs dst_dir fs).findSome? (fun sd => fetchErr (dl sd.1 sd.2))) <;>
      exact List.mem_append.mpr (Or.inr (List.mem_map.mpr ⟨y, hmemf, rfl⟩))

/-- C7 witness: a concrete two-source transfer whose second fetch fails. -/
theorem C7_first_error_surfaced_witness :
    ((("b".data, "a/k2".data), "d/k2".data) ∈ missingOf srcsC7 "d".data [])
    ∧ dlC7 ("b".data, "a/k2".data) "d/k2".data = .error 7
    ∧ ((∃ e' pre x post,
          (download_files_exc dlC7 srcsC7 "d".data []).1 = .error e'
          ∧ missingOf srcsC7 "d".data [] = pre ++ x :: post
          ∧ dlC7 x.1 x.2 = .error e'
          ∧ ∀ y ∈ pre, dlC7 y.1 y.2 = .ok ())
        ∧ (∀ p ∈ ([] : List Str), p ∈ (download_files_exc dlC7 srcsC7 "d".data []).2)
        ∧ (∀ y ∈ missingOf srcsC7 "d".data [], dlC7 y.1 y.2 = .ok () →
              y.2 ∈ (download_files_exc dlC7 srcsC7 "d".data []).2)) :=
  ⟨by decide, rfl,
    C7_first_error_surfaced dlC7 srcsC7 "d".data []
      (("b".data, "a/k2".data), "d/k2".data) (by decide) 7 rfl⟩

/-- Appending one more element makes the shorter list a prefix. -/
theorem isPrefixOf_append_cons (l : Str) (c : Char) (m : Str) :
    (l ++ [c]).isPrefixOf (l ++ c :: m) = true := by
  rw [ List.isPrefixOf_iff_prefix]
  exact ⟨m, by simp⟩

/-- C6: for an output directory with N files, `upload_outputs` issues exactly
N+1 upload calls: one per file then exactly one manifest call, strictly last;
every call, the manifest's included, goes to the same bucket, under the same
key prefix, and with the same ACL policy — `public-read` in debug mode,
`private` otherwise. -/
theorem C6_upload_order (granule_id : Str) (output_files : List Str)
    (bucket : Str) (debug : Bool) (kp : Str)
    (h : output_key_pfx granule_id = some kp) :
    ∃ calls mname,
      upload_outputs granule_id output_files bucket debug = some calls
      ∧ create_manifest_filename granule_id = some mname
      ∧ calls.length = output_files.length + 1
      ∧ calls = output_files.map (fun name =>
            ⟨bucket, kp ++ '/' :: name,
              if debug then "public-read".data else "private".data⟩)
          ++ [⟨bucket, kp ++ '/' :: mname,
              if debug then "public-read".data else "private".data⟩]
      ∧ calls.getLast? = some ⟨bucket, kp ++ '/' :: mname,
          if debug then "public-read".data else "private".data⟩
      ∧ ∀ call ∈ calls,
          (kp ++ ['/']).isPrefixOf call.key = true
          ∧ call.acl = (if debug then "public-read".data else "private".data)
          ∧ call.bucket = bucket := by
  refine ⟨_, ((splitSep '/' kp).getLastD []) ++ ".json".data,
    ?_, ?_, ?_, rfl, ?_, ?_⟩
  · rw [upload_outputs, h, create_manifest_filename, h]
    rfl
  · rw [create_manifest_filename, h]
    rfl
  · simp
  · exact List.getLast?_concat _
  · intro call hcall
    rcases List.mem_append.mp hcall with hart | hman
    · obtain ⟨name, _, rfl⟩ := List.mem_map.mp hart
      exact ⟨isPrefixOf_append_cons kp '/' name, rfl, rfl⟩
    · rcases List.mem_singleton.mp hman with rfl
      exact ⟨isPrefixOf_append_cons kp '/' _, rfl, rfl⟩

/-- C6 witness at a concrete granule, two output files, non-debug mode. -/
theorem C6_upload_order_witness :
    output_key_pfx "HLS.L30.T58UFF.2025105T234951.v2.0".data
        = some "L30_VI/data/2025105/HLS-VI.L30.T58UFF.2025105T234951.v2.0".data
    ∧ (∃ calls mname,
        upload_outputs "HLS.L30.T58UFF.2025105T234951.v2.0".data
            ["a.tif".data, "b.tif".data] "lp-prod-output".data false = some calls
        ∧ create_manifest_filename "HLS.L30.T58UFF.2025105T234951.v2.0".data = some mname
        ∧ calls.length = (["a.tif".data, "b.tif".data] : List Str).length + 1
        ∧ calls = (["a.tif".data, "b.tif".data] : List Str).map (fun name =>
              ⟨"lp-prod-output".data,
                "L30_VI/data/2025105/HLS-VI.L30.T58UFF.2025105T234951.v2.0".data ++ '/' :: name,
                if false then "public-read".data else "private".data⟩)
            ++ [⟨"lp-prod-output".data,
                "L30_VI/data/2025105/HLS-VI.L30.T58UFF.2025105T234951.v2.0".data ++ '/' :: mname,
                if false then "public-read".data else "private".data⟩]
        ∧ calls.getLast? = some ⟨"lp-prod-output".data,
            "L30_VI/data/2025105/HLS-VI.L30.T58UFF.2025105T234951.v2.0".data ++ '/' :: mname,
            if false then "public-read".data else "private".data⟩
        ∧ ∀ call ∈ calls,
            ("L30_VI/data/2025105/HLS-VI.L30.T58UFF.2025105T234951.v2.0".data ++ ['/']).isPrefixOf call.key = true
            ∧ call.acl = (if false then "public-read".data else "private".data)
            ∧ call.bucket = "lp-prod-output".data) :=
  ⟨by decide,
    C6_upload_order "HLS.L30.T58UFF.2025105T234951.v2.0".data
      ["a.tif".data, "b.tif".data] "lp-prod-output".data false
      "L30_VI/data/2025105/HLS-VI.L30.T58UFF.2025105T234951.v2.0".data (by decide)⟩

mutual

/-- After sanitization a node that is not itself removable contains no
URL-bearing element. -/
theorem countUrl_sanitize (urlTags : List Str) :
    ∀ x : Xml, removable urlTags x = false →
      countUrl urlTags (sanitize urlTags x) = 0
  | .text _, _ => by simp [sanitize, countUrl]
  | .elem t a cs, h => by
    have hb := countUrlList_sanitizeChildren urlTags cs
    simp only [removable, Bool.or_eq_false_iff] at h
    have hmemt : t ∉ urlTags := by simpa using h.1
    simp [sanitize, countUrl, hb, hmemt]

/-- After sanitization a child list contains no URL-bearing element. -/
theorem countUrlList_sanitizeChildren (urlTags : List Str) :
    ∀ cs : List Xml, countUrlList urlTags (sanitizeChildren urlTags cs) = 0
  | [] => by simp [sanitizeChildren, countUrlList]
  | c :: cs => by
    have hcs := countUrlList_sanitizeChildren urlTags cs
    by_cases hr : removable urlTags c
    · simp [sanitizeChildren, hr, countUrlList, hcs]
    · have hc := countUrl_sanitize urlTags c (by simpa using hr)
      simp [sanitizeChildren, hr, countUrlList, hcs, hc]

end

/-- Sanitization never introduces `SHA512` character data in a child list. -/
theorem hasSHA512Text_sanitizeChildren (urlTags : List Str) :
    ∀ cs : List Xml,
      hasSHA512Text (sanitizeChildren urlTags cs) = true → hasSHA512Text cs = true := by
  intro cs
  induction cs with
  | nil => simp [sanitizeChildren]
  | cons c cs ih =>
    by_cases hr : removable urlTags c
    · rcases c with s | ⟨t, a, k⟩
      · simp [removable] at hr
      · intro hx
        rw [sanitizeChildren, hr] at hx
        simp only [if_pos, List.nil_append] at hx
        rw [hasSHA512Text]
        exact ih hx
    · rcases c with s | ⟨t, a, k⟩
      · intro hx
        rw [sanitizeChildren, if_neg hr] at hx
        rw [sanitize] at hx
        rw [List.singleton_append, hasSHA512Text] at hx
        rw [hasSHA512Text]
        rcases Bool.or_eq_true_iff.mp hx with hv | hrest
        · exact Bool.or_eq_true_iff.mpr (Or.inl hv)
        · exact Bool.or_eq_true_iff.mpr (Or.inr (ih hrest))
      · intro hx
        rw [sanitizeChildren, if_neg hr] at hx
        rw [sanitize] at hx
        rw [List.singleton_append, hasSHA512Text] at hx
        rw [hasSHA512Text]
        exact ih hx

mutual

/-- After sanitization a node that is not itself removable contains no
non-canonical checksum algorithm entry. -/
theorem countAlg_sanitize (urlTags : List Str) :
    ∀ x : Xml, removable urlTags x = false →
      countAlg (sanitize urlTags x) = 0
  | .text _, _ => by simp [sanitize, countAlg]
  | .elem t a cs, h => by
    have hb := countAlgList_sanitizeChildren urlTags cs
    simp only [removable, Bool.or_eq_false_iff] at h
    have halg : isNonCanonicalAlg (.elem t a (sanitizeChildren urlTags cs)) = false := by
      rw [isNonCanonicalAlg]
      rw [isNonCanonicalAlg] at h
      rcases Bool.and_eq_false_iff.mp h.2 with ht | hs
      · rw [ht]
        simp
      · rw [Bool.and_eq_false_iff]
        right
        by_contra hne
        rw [Bool.not_eq_false] at hne
        rw [hasSHA512Text_sanitizeChildren urlTags cs hne] at hs
        exact absurd hs (by simp)
    simp [sanitize, countAlg, hb, halg]

/-- After sanitization a child list contains no non-canonical checksum
algorithm entry. -/
theorem countAlgList_sanitizeChildren (urlTags : List Str) :
    ∀ cs : List Xml, countAlgList (sanitizeChildren urlTags cs) = 0
  | [] => by simp [sanitizeChildren, countAlgList]
  | c :: cs => by
    have hcs := countAlgList_sanitizeChildren urlTags cs
    by_cases hr : removable urlTags c
    · simp [sanitizeChildren, hr, countAlgList, hcs]
    · have hc := countAlg_sanitize urlTags c (by simpa using hr)
      simp [sanitizeChildren, hr, countAlgList, hcs, hc]

end

/-- C9: for an XML document with at least one URL-bearing element and at
least one non-canonically spelled checksum algorithm entry (and whose root,
as in every CMR granule document, is neither), the sanitized document
contains zero URL elements and zero non-canonical algorithm spellings, and
the canonical serialization renders every empty element as an explicit
open/close tag pair, never in self-closing form. -/
theorem C9_sanitizer (urlTags : List Str) (doc : Xml)
    (hroot : removable urlTags doc = false)
    (_hurl : 1 ≤ countUrl urlTags doc) (_halg : 1 ≤ countAlg doc) :
    countUrl urlTags (sanitize urlTags doc) = 0
    ∧ countAlg (sanitize urlTags doc) = 0
    ∧ ∀ (t : Str) (a : List (Str × Str)),
        serialize (Xml.elem t a []) =
          '<' :: (t ++ serializeAttrs a) ++ '>' :: ('<' :: '/' :: t ++ ['>']) := by
  refine ⟨countUrl_sanitize urlTags doc hroot, countAlg_sanitize urlTags doc hroot, ?_⟩
  intro t a
  rw [serialize, serializeList]
  rfl

/-- C9 witness: a Granule document with one URL element and one
non-canonical checksum entry. -/
theorem C9_sanitizer_witness :
    removable ["OnlineAccessURLs".data]
        (Xml.elem "Granule".data []
          [Xml.elem "OnlineAccessURLs".data [] [],
           Xml.elem "Algorithm".data [] [Xml.text "SHA512".data]]) = false
    ∧ 1 ≤ countUrl ["OnlineAccessURLs".data]
        (Xml.elem "Granule".data []
          [Xml.elem "OnlineAccessURLs".data [] [],
           Xml.elem "Algorithm".data [] [Xml.text "SHA512".data]])
    ∧ 1 ≤ countAlg
        (Xml.elem "Granule".data []
          [Xml.elem "OnlineAccessURLs".data [] [],
           Xml.elem "Algorithm".data [] [Xml.text "SHA512".data]])
    ∧ (countUrl ["OnlineAccessURLs".data]
          (sanitize ["OnlineAccessURLs".data]
            (Xml.elem "Granule".data []
              [Xml.elem "OnlineAccessURLs".data [] [],
               Xml.elem "Algorithm".data [] [Xml.text "SHA512".data]])) = 0
        ∧ countAlg
            (sanitize ["OnlineAccessURLs".data]
              (Xml.elem "Granule".data []
                [Xml.elem "OnlineAccessURLs".data [] [],
                 Xml.elem "Algorithm".data [] [Xml.text "SHA512".data]])) = 0
        ∧ ∀ (t : Str) (a : List (Str × Str)),
            serialize (Xml.elem t a []) =
              '<' :: (t ++ serializeAttrs a) ++ '>' :: ('<' :: '/' :: t ++ ['>'])) :=
  ⟨rfl, by decide, by decide,
    C9_sanitizer ["OnlineAccessURLs".data]
      (Xml.elem "Granule".data []
        [Xml.elem "OnlineAccessURLs".data [] [],
         Xml.elem "Algorithm".data [] [Xml.text "SHA512".data]])
      rfl (by decide) (by decide)⟩
